import Mathlib

/-!
Verification of the ulauncher-gpt extension (`src/main.py`) against its
natural-language specification.

The development shallowly embeds the Python source into Lean:

* Python strings become `String`, Python ints become `Int`, Python floats
  become `Rat` (only the literals occurring in this development are ever
  parsed, so exact binary rounding is irrelevant: no theorem depends on a
  float value, only on parse success or failure).
* The builtin helpers used by the source (`str.split()`, `str.strip()`,
  `str.join`, `int()`, `float()`, `dict[key]`, `repr`/`str` of decoded
  JSON) are modelled explicitly for ASCII input, which is the scope of
  every concrete input appearing here.
* Exception-based control flow becomes `Except PyErr`; an `Except.error`
  escaping a function models an uncaught Python exception.
* The single outbound HTTP POST is modelled by a parameter
  `net : Except PyErr HttpResponse` describing what `requests.post` does
  for this one call (raise a transport exception, or return a response);
  every request actually handed to `requests.post` is recorded in a
  dispatch list so that "no network call happens" is expressible.
-/

/-! ## Python text builtins -/

/-- The whitespace characters recognised by CPython `str.split()` /
`str.strip()` / `int()` / `float()` on ASCII input: space, `\t`, `\n`,
`\r`, `\x0b`, `\x0c` and the file/group/record/unit separators
`\x1c`-`\x1f`. -/
def isPySpace (c : Char) : Bool :=
  c = ' ' || c = '\t' || c = '\n' || c = '\r' || c = '\x0b' || c = '\x0c' ||
  c = '\x1c' || c = '\x1d' || c = '\x1e' || c = '\x1f'

/-- Flush a (reversed) token accumulator: empty accumulators produce no
token, mirroring that `str.split()` never yields empty tokens. -/
def flushTok (acc : List Char) : List (List Char) :=
  if acc = [] then [] else [acc.reverse]

/-- Worker for `pySplit`: scan the characters, accumulating the current
token in reverse; a whitespace character flushes the accumulator. -/
def splitWSAux : List Char → List Char → List (List Char)
  | [], acc => flushTok acc
  | c :: cs, acc =>
    if isPySpace c then flushTok acc ++ splitWSAux cs []
    else splitWSAux cs (c :: acc)

/-- Model of CPython `text.split()` (no separator argument): split on runs
of whitespace, dropping empty tokens and boundary whitespace. -/
def pySplit (s : String) : List String :=
  (splitWSAux s.data []).map (fun l => String.mk l)

/-- Strip leading and trailing whitespace from a character list. -/
def stripL (l : List Char) : List Char :=
  ((l.dropWhile isPySpace).reverse.dropWhile isPySpace).reverse

/-- Model of CPython `text.strip()` (no argument) on ASCII text. -/
def pyStrip (s : String) : String := String.mk (stripL s.data)

/-- Model of CPython `sep.join(xs)`. -/
def pyJoin (sep : String) : List String → String
  | [] => ""
  | [x] => x
  | x :: y :: xs => x ++ sep ++ pyJoin sep (y :: xs)

/-- Value of an ASCII digit character. -/
def digitVal (c : Char) : Nat := c.toNat - '0'.toNat

/-- Continue scanning a CPython numeric digit-part after at least one digit
has been read: digits, with single underscores allowed between digits.
Returns the accumulated value, the number of digits consumed so far, and
the unconsumed remainder; `none` on a malformed underscore. -/
def pyDigitsAux : List Char → Nat → Nat → Option (Nat × Nat × List Char)
  | '_' :: c :: rest, acc, cnt =>
    if c.isDigit then pyDigitsAux rest (acc * 10 + digitVal c) (cnt + 1) else none
  | ['_'], _, _ => none
  | c :: rest, acc, cnt =>
    if c.isDigit then pyDigitsAux rest (acc * 10 + digitVal c) (cnt + 1)
    else some (acc, cnt, c :: rest)
  | [], acc, cnt => some (acc, cnt, [])

/-- Parse a (possibly empty) CPython digit-part prefix: a digit-part must
begin with a digit; if the input does not start with a digit the count is
0 and nothing is consumed. -/
def pyDigitPart (l : List Char) : Option (Nat × Nat × List Char) :=
  match l with
  | c :: rest => if c.isDigit then pyDigitsAux rest (digitVal c) 1 else some (0, 0, l)
  | [] => some (0, 0, [])

/-- Model of CPython `int(s)` (base 10) on ASCII input: optional
surrounding whitespace, optional sign, digits with single underscores
between digits. `none` models a raised `ValueError`. -/
def pyInt (s : String) : Option Int :=
  let core : List Char → Option Nat := fun l =>
    match pyDigitPart l with
    | some (v, cnt, []) => if cnt = 0 then none else some v
    | _ => none
  match stripL s.data with
  | '+' :: rest => (core rest).map (fun n => (n : Int))
  | '-' :: rest => (core rest).map (fun n => -(n : Int))
  | l => (core l).map (fun n => (n : Int))

/-- Model of CPython `float(s)` on ASCII plain decimal literals (optional
sign, digit-part, optional fraction, optional exponent; `inf`/`nan` and
non-ASCII digits are out of scope — no input in this development uses
them). The value is returned as an exact rational; no theorem below
depends on a float value, only on parse success or failure. -/
def pyFloat (s : String) : Option Rat :=
  let signSplit : List Char → (Int × List Char) := fun l =>
    match l with
    | '+' :: rest => (1, rest)
    | '-' :: rest => (-1, rest)
    | rest => (1, rest)
  let (sign, l) := signSplit (stripL s.data)
  match pyDigitPart l with
  | none => none
  | some (ip, ipCnt, rest) =>
    let mantissa : Option (Rat × List Char) :=
      match rest with
      | '.' :: rest2 =>
        match pyDigitPart rest2 with
        | none => none
        | some (fv, fc, rest3) =>
          if ipCnt = 0 && fc = 0 then none
          else some ((ip : Rat) + (if fc = 0 then 0 else (fv : Rat) / ((10 : Rat) ^ fc)), rest3)
      | _ => if ipCnt = 0 then none else some ((ip : Rat), rest)
    match mantissa with
    | none => none
    | some (m, rest3) =>
      match rest3 with
      | [] => some ((sign : Rat) * m)
      | 'e' :: rest4 =>
        let (esign, rest5) := signSplit rest4
        match pyDigitPart rest5 with
        | some (ev, ecnt, []) =>
          if ecnt = 0 then none else some ((sign : Rat) * m * (10 : Rat) ^ (esign * (ev : Int)))
        | _ => none
      | 'E' :: rest4 =>
        let (esign, rest5) := signSplit rest4
        match pyDigitPart rest5 with
        | some (ev, ecnt, []) =>
          if ecnt = 0 then none else some ((sign : Rat) * m * (10 : Rat) ^ (esign * (ev : Int)))
        | _ => none
      | _ => none

/-- CPython `repr` of a string, for strings containing no quote or escape
characters (the only strings rendered in this development). -/
def pyReprStr (s : String) : String := "\x27" ++ s ++ "\x27"

/-- Naive substring test: `containsSub s pat` is true iff `pat` occurs
contiguously in `s`. -/
def containsSubL (pat : List Char) : List Char → Bool
  | [] => pat.isPrefixOf []
  | c :: rest => pat.isPrefixOf (c :: rest) || containsSubL pat rest

/-- Substring test on strings (used to state what an error message does
or does not mention). -/
def containsSub (s pat : String) : Bool := containsSubL pat.data s.data

/-! ## `wrap_text` (src/main.py lines 71-82) -/

/-- The loop of `wrap_text`, translated word by word:

```python
for word in words:
    if len(current_line + word) <= max_w:
        current_line += ' ' + word
    else:
        lines.append(current_line.strip())
        current_line = word
lines.append(current_line.strip())
```
-/
def wrapCore (max_w : Int) : List String → List String → String → List String
  | [], lines, current_line => lines ++ [pyStrip current_line]
  | word :: words, lines, current_line =>
    if ((current_line ++ word).length : Int) ≤ max_w then
      wrapCore max_w words lines (current_line ++ " " ++ word)
    else
      wrapCore max_w words (lines ++ [pyStrip current_line]) word

/-- The `lines` list built by `wrap_text text max_w` just before the final
`'\n'.join(lines)`: the emitted lines of the wrapper. -/
def wrapLines (text : String) (max_w : Int) : List String :=
  wrapCore max_w (pySplit text) [] ""

/-- `wrap_text` from src/main.py: greedy word wrap, lines joined by
newlines. -/
def wrap_text (text : String) (max_w : Int) : String :=
  pyJoin "\n" (wrapLines text max_w)

/-! ## Decoded JSON values and Python exceptions -/

/-- A decoded JSON value, as produced by `response.json()`. A float is
carried by its CPython `repr` string, since no code path below computes
with float response fields. -/
inductive JValue where
  | jstr (s : String)
  | jint (n : Int)
  | jfloat (rep : String)
  | jbool (b : Bool)
  | jnull
  | jarr (elems : List JValue)
  | jobj (fields : List (String × JValue))

/-- A raised Python exception, by class, carrying exactly the text that
`str(err)` yields (for `KeyError`, `str` adds `repr` quotes around the
key). -/
inductive PyErr where
  | keyError (key : String)
  | valueError (msg : String)
  | typeError (msg : String)
  | attributeError (msg : String)
  | requestException (msg : String)
  | exception (msg : String)
deriving DecidableEq

/-- `str(err)` for a caught exception. -/
def strErr : PyErr → String
  | .keyError k => pyReprStr k
  | .valueError m => m
  | .typeError m => m
  | .attributeError m => m
  | .requestException m => m
  | .exception m => m

instance {ε α : Type} [DecidableEq ε] [DecidableEq α] : DecidableEq (Except ε α) := fun a b =>
  match a, b with
  | .ok x, .ok y =>
    if h : x = y then isTrue (by rw [h]) else isFalse (fun hh => by cases hh; exact h rfl)
  | .error x, .error y =>
    if h : x = y then isTrue (by rw [h]) else isFalse (fun hh => by cases hh; exact h rfl)
  | .ok _, .error _ => isFalse (fun hh => by cases hh)
  | .error _, .ok _ => isFalse (fun hh => by cases hh)

/-- The Python type name of a decoded JSON value. -/
def pyTypeName : JValue → String
  | .jstr _ => "str"
  | .jint _ => "int"
  | .jfloat _ => "float"
  | .jbool _ => "bool"
  | .jnull => "NoneType"
  | .jarr _ => "list"
  | .jobj _ => "dict"

mutual
/-- CPython `repr` of a decoded JSON value (strings single-quoted; `json`
decodes `true`/`null` to `True`/`None`). -/
def pyReprJ : JValue → String
  | .jstr s => pyReprStr s
  | .jint n => toString n
  | .jfloat rep => rep
  | .jbool b => if b then "True" else "False"
  | .jnull => "None"
  | .jarr es => "[" ++ pyReprList es ++ "]"
  | .jobj fs => "\x7b" ++ pyReprFields fs ++ "\x7d"
/-- `repr` of list elements, comma-separated. -/
def pyReprList : List JValue → String
  | [] => ""
  | [x] => pyReprJ x
  | x :: y :: xs => pyReprJ x ++ ", " ++ pyReprList (y :: xs)
/-- `repr` of dict entries, comma-separated. -/
def pyReprFields : List (String × JValue) → String
  | [] => ""
  | [(k, v)] => pyReprStr k ++ ": " ++ pyReprJ v
  | (k, v) :: y :: xs => pyReprStr k ++ ": " ++ pyReprJ v ++ ", " ++ pyReprFields (y :: xs)
end

/-- CPython `str` of a decoded JSON value: identical to `repr` except on
a top-level string, where `str` is the identity. -/
def pyStrTop : JValue → String
  | .jstr s => s
  | v => pyReprJ v

/-- Dict lookup `v[key]`, with `none` when the key is missing or the
value is not subscriptable by a string — exactly the cases in which the
subscript raises (`KeyError`/`TypeError`). Used where the source wraps
the subscript in a broad `try`/`except`, so only success vs. raise
matters. -/
def jGet (v : JValue) (key : String) : Option JValue :=
  match v with
  | .jobj fields => fields.lookup key
  | _ => none

/-- Dict lookup `v[key]` with the precise exception on failure, for the
subscripts the source performs outside any `try` block. -/
def getItem (v : JValue) (key : String) : Except PyErr JValue :=
  match v with
  | .jobj fields =>
    match fields.lookup key with
    | some x => .ok x
    | none => .error (.keyError key)
  | .jstr _ => .error (.typeError "string indices must be integers")
  | .jarr _ => .error (.typeError "list indices must be integers or slices, not str")
  | v => .error (.typeError (pyReprStr (pyTypeName v) ++ " object is not subscriptable"))

/-! ## Result items and actions (host API shapes) -/

/-- The `on_enter` action attached to a result item. -/
inductive OnEnter where
  | doNothingAction
  | copyToClipboardAction (text : String)
  | extensionCustomAction (data : String) (keep_app_open : Bool)
deriving DecidableEq

/-- An `ExtensionResultItem`: icon, title, body (`description`) and
action. `description` defaults to the empty rendering when not passed. -/
structure ExtensionResultItem where
  icon : String
  name : String
  description : String := ""
  on_enter : OnEnter
deriving DecidableEq

def EXTENSION_ICON : String := "images/icon.png"

def ENDPOINT : String := "https://api.openai.com/v1/chat/completions"

/-! ## Configuration resolution (`SettingsHandler.parse_prefs`) -/

/-- The typed configuration produced by `parse_prefs`. -/
structure Config where
  api_key : String
  max_tokens : Int
  frequency_penalty : Rat
  presence_penalty : Rat
  temperature : Rat
  top_p : Rat
  system_prompt : String
  line_wrap : Int
  model : String
  wait_for_enter : Int
deriving Inhabited

/-- `preferences[key]`: association-list lookup raising `KeyError` on a
missing key. -/
def lookupPref (preferences : List (String × String)) (key : String) : Except PyErr String :=
  match preferences.lookup key with
  | some v => .ok v
  | none => .error (.keyError key)

/-- `int(s)` as an expression: a parse failure raises `ValueError` with
CPython's message. -/
def toIntE (s : String) : Except PyErr Int :=
  match pyInt s with
  | some n => .ok n
  | none => .error (.valueError ("invalid literal for int() with base 10: " ++ pyReprStr s))

/-- `float(s)` as an expression: a parse failure raises `ValueError` with
CPython's message. -/
def toFloatE (s : String) : Except PyErr Rat :=
  match pyFloat s with
  | some q => .ok q
  | none => .error (.valueError ("could not convert string to float: " ++ pyReprStr s))

/-- `SettingsHandler.parse_prefs` (src/main.py lines 132-144): sequential
field resolution, the first raised exception propagating; the field order
is the source's statement order. -/
def parse_prefs (preferences : List (String × String)) : Except PyErr Config :=
  match lookupPref preferences "api_key" with
  | .error e => .error e
  | .ok api_key =>
  match lookupPref preferences "max_tokens" with
  | .error e => .error e
  | .ok raw_max_tokens =>
  match toIntE raw_max_tokens with
  | .error e => .error e
  | .ok max_tokens =>
  match lookupPref preferences "frequency_penalty" with
  | .error e => .error e
  | .ok raw_frequency_penalty =>
  match toFloatE raw_frequency_penalty with
  | .error e => .error e
  | .ok frequency_penalty =>
  match lookupPref preferences "presence_penalty" with
  | .error e => .error e
  | .ok raw_presence_penalty =>
  match toFloatE raw_presence_penalty with
  | .error e => .error e
  | .ok presence_penalty =>
  match lookupPref preferences "temperature" with
  | .error e => .error e
  | .ok raw_temperature =>
  match toFloatE raw_temperature with
  | .error e => .error e
  | .ok temperature =>
  match lookupPref preferences "top_p" with
  | .error e => .error e
  | .ok raw_top_p =>
  match toFloatE raw_top_p with
  | .error e => .error e
  | .ok top_p =>
  match lookupPref preferences "system_prompt" with
  | .error e => .error e
  | .ok system_prompt =>
  match lookupPref preferences "line_wrap" with
  | .error e => .error e
  | .ok raw_line_wrap =>
  match toIntE raw_line_wrap with
  | .error e => .error e
  | .ok line_wrap =>
  match lookupPref preferences "model" with
  | .error e => .error e
  | .ok model =>
  match lookupPref preferences "wait_before_query" with
  | .error e => .error e
  | .ok raw_wait =>
  match toIntE raw_wait with
  | .error e => .error e
  | .ok wait_for_enter =>
  .ok ⟨api_key, max_tokens, frequency_penalty, presence_penalty, temperature,
       top_p, system_prompt, line_wrap, model, wait_for_enter⟩

/-! ## `query` (src/main.py lines 18-67) -/

/-- One message of the outbound `messages` list. -/
structure ChatMessage where
  role : String
  content : String
deriving DecidableEq

/-- The request body dict built by `query`, field order as in the
source. (`json.dumps` then serialises exactly this value.) -/
structure ChatBody where
  messages : List ChatMessage
  temperature : Rat
  max_tokens : Int
  top_p : Rat
  frequency_penalty : Rat
  presence_penalty : Rat
  model : String

/-- A request actually handed to `requests.post`: its body and headers
(the URL is the fixed `ENDPOINT`). -/
structure Dispatch where
  body : ChatBody
  headers : List (String × String)

/-- A raw `requests.Response`: `rep` models `str(response)` (e.g.
`"<Response [200]>"`); `body` is the result of `response.json()`, `none`
when decoding raises. -/
structure HttpResponse where
  rep : String
  body : Option JValue

/-- What `query` evaluates to when it does not raise: the blank-prompt
`RenderResultListAction` (carrying its items), or the HTTP response. -/
inductive QueryReturn where
  | blankAction (items : List ExtensionResultItem)
  | response (r : HttpResponse)

/-- `query` from src/main.py. The network is a parameter `net` giving the
outcome of the single `requests.post` call (an `Except.error` models a
raised transport exception). The second component lists every request
handed to `requests.post`, so "no network call" is expressible. -/
def query (search_term system_prompt api_key : String) (temperature : Rat)
    (max_tokens : Int) (top_p frequency_penalty presence_penalty : Rat) (model : String)
    (net : Except PyErr HttpResponse) : Except PyErr QueryReturn × List Dispatch :=
  if search_term = "" then
    (.ok (.blankAction [{ icon := EXTENSION_ICON, name := "Type in a prompt...",
                          on_enter := .doNothingAction }]), [])
  else
    let headers := [("content-type", "application/json"),
                    ("Authorization", "Bearer " ++ api_key)]
    let body : ChatBody :=
      { messages := [⟨"system", system_prompt⟩, ⟨"user", search_term⟩],
        temperature := temperature, max_tokens := max_tokens, top_p := top_p,
        frequency_penalty := frequency_penalty, presence_penalty := presence_penalty,
        model := model }
    match net with
    | .error e => (.error e, [⟨body, headers⟩])
    | .ok r => (.ok (.response r), [⟨body, headers⟩])

/-! ## `create_items` (src/main.py lines 84-116) -/

def UNKNOWN_ERR : String := "Unknown error, please check logs for more info"

/-- Models `str(x)` of a `RenderResultListAction` object (the default
object `repr`, up to the memory address, which never influences any
claim). -/
def BLANK_ACTION_REPR : String :=
  "<ulauncher.api.shared.action.RenderResultListAction.RenderResultListAction object>"

/-- `choice['message']['content']`, with the exact exception propagation
of the two subscripts (both outside any `try` in the source). -/
def jcontent (choice : JValue) : Except PyErr JValue :=
  match getItem choice "message" with
  | .error e => .error e
  | .ok m => getItem m "content"

/-- The result item built for one choice. -/
def assistantItem (wrapped : String) : ExtensionResultItem :=
  { icon := EXTENSION_ICON, name := "Assistant", description := wrapped,
    on_enter := .copyToClipboardAction wrapped }

/-- The loop body of `create_items` for one choice:
`message = wrap_text(choice['message']['content'], line_wrap)` and the
item construction. A non-string content reaches `wrap_text`, whose
`text.split()` raises `AttributeError`. -/
def choiceItem (line_wrap : Int) (choice : JValue) : Except PyErr ExtensionResultItem :=
  match jcontent choice with
  | .error e => .error e
  | .ok (.jstr s) => .ok (assistantItem (wrap_text s line_wrap))
  | .ok v =>
    .error (.attributeError
      (pyReprStr (pyTypeName v) ++ " object has no attribute \x27split\x27"))

/-- `for choice in choices` over a decoded value that is not a list:
iterating a non-empty string or dict yields string elements whose
`['message']` subscript raises; other types are not iterable. -/
def iterItems (line_wrap : Int) : JValue → Except PyErr (List ExtensionResultItem)
  | .jarr choices => choices.mapM (choiceItem line_wrap)
  | .jstr s =>
    if s = "" then .ok []
    else .error (.typeError "string indices must be integers")
  | .jobj [] => .ok []
  | .jobj (_ :: _) => .error (.typeError "string indices must be integers")
  | v => .error (.typeError (pyReprStr (pyTypeName v) ++ " object is not iterable"))

/-- `create_items` from src/main.py. The `try` covers `response.json()`
and the `['choices']` subscript; note the rebinding `response =
response.json()`, so in the `except` branch `str(response)` renders the
decoded body when decoding succeeded, and the raw response object when
it did not. A non-string `error.message` makes the
`str(response) + errMsg` concatenation itself raise `TypeError`. The
final returned `Except.error` models the `raise` (or a later uncaught
exception) propagating out of `create_items`. -/
def create_items (response : QueryReturn) (line_wrap : Int) :
    Except PyErr (List ExtensionResultItem) :=
  match response with
  | .blankAction _ => .error (.exception (BLANK_ACTION_REPR ++ UNKNOWN_ERR))
  | .response r =>
    match r.body with
    | none => .error (.exception (r.rep ++ UNKNOWN_ERR))
    | some j =>
      match jGet j "choices" with
      | none =>
        match (jGet j "error").bind (fun e => jGet e "message") with
        | some (.jstr s) => .error (.exception (pyStrTop j ++ s))
        | some v =>
          .error (.typeError
            ("can only concatenate str (not \x22" ++ pyTypeName v ++ "\x22) to str"))
        | none => .error (.exception (pyStrTop j ++ UNKNOWN_ERR))
      | some choicesVal => iterItems line_wrap choicesVal

/-! ## Event listeners (src/main.py lines 146-240) -/

/-- `str(event.get_argument())`: ulauncher yields `None` when nothing
follows the keyword, and `str(None)` is the string `"None"`. -/
def pyStrOpt : Option String → String
  | none => "None"
  | some s => s

namespace KeywordQueryEventListener

/-- `KeywordQueryEventListener.on_event`. Inputs: the raw preference
mapping, the raw event argument (`none` models a `None` argument) and
the network behaviour. Output: what the handler returns (`Except.error`
models an exception escaping the handler uncaught — the
`create_items` call on line 239 sits outside any `try`), paired with the
list of dispatched requests. -/
def on_event (preferences : List (String × String)) (argument : Option String)
    (net : Except PyErr HttpResponse) :
    Except PyErr (List ExtensionResultItem) × List Dispatch :=
  match parse_prefs preferences with
  | .error err =>
    (.ok [{ icon := EXTENSION_ICON,
            name := "Failed to parse preferences: " ++ strErr err,
            on_enter := .copyToClipboardAction (strErr err) }], [])
  | .ok cfg =>
    let search_term := pyStrOpt argument
    if cfg.wait_for_enter ≠ 0 then
      (.ok [{ icon := EXTENSION_ICON,
              name := "Waiting until Enter is pressed: " ++ search_term,
              on_enter := .extensionCustomAction search_term true }], [])
    else
      match query search_term cfg.system_prompt cfg.api_key cfg.temperature
          cfg.max_tokens cfg.top_p cfg.frequency_penalty cfg.presence_penalty
          cfg.model net with
      | (.error err, ds) =>
        (.ok [{ icon := EXTENSION_ICON,
                name := "Request failed: " ++ strErr err,
                on_enter := .copyToClipboardAction (strErr err) }], ds)
      | (.ok qr, ds) => (create_items qr cfg.line_wrap, ds)

end KeywordQueryEventListener

namespace ItemEnterEventListener

/-- `ItemEnterEventListener.on_event`: like the keyword listener but the
search term is `event.get_data()` (the custom action's captured string)
and there is no wait-for-enter branch. -/
def on_event (preferences : List (String × String)) (data : String)
    (net : Except PyErr HttpResponse) :
    Except PyErr (List ExtensionResultItem) × List Dispatch :=
  match parse_prefs preferences with
  | .error err =>
    (.ok [{ icon := EXTENSION_ICON,
            name := "Failed to parse preferences: " ++ strErr err,
            on_enter := .copyToClipboardAction (strErr err) }], [])
  | .ok cfg =>
    match query data cfg.system_prompt cfg.api_key cfg.temperature
        cfg.max_tokens cfg.top_p cfg.frequency_penalty cfg.presence_penalty
        cfg.model net with
    | (.error err, ds) =>
      (.ok [{ icon := EXTENSION_ICON,
              name := "Request failed: " ++ strErr err,
              on_enter := .copyToClipboardAction (strErr err) }], ds)
    | (.ok qr, ds) => (create_items qr cfg.line_wrap, ds)

end ItemEnterEventListener

/-! ## Concrete fixtures used by witnesses and counterexamples -/

/-- A preference mapping on which every field resolves. -/
def prefs0 : List (String × String) :=
  [("api_key", "k"), ("max_tokens", "16"), ("frequency_penalty", "0"),
   ("presence_penalty", "0"), ("temperature", "1"), ("top_p", "1"),
   ("system_prompt", "sys"), ("line_wrap", "20"), ("model", "m"),
   ("wait_before_query", "0")]

/-- The configuration `prefs0` resolves to. -/
def cfg0 : Config := ((parse_prefs prefs0).toOption).getD default

/-- `prefs0` with a non-numeric `max_tokens`. -/
def prefsBadMax : List (String × String) :=
  [("api_key", "k"), ("max_tokens", "abc"), ("frequency_penalty", "0"),
   ("presence_penalty", "0"), ("temperature", "1"), ("top_p", "1"),
   ("system_prompt", "sys"), ("line_wrap", "20"), ("model", "m"),
   ("wait_before_query", "0")]

/-- A decoded error body: `{"error": {"message": "bad key"}}`. -/
def errBody0 : JValue := .jobj [("error", .jobj [("message", .jstr "bad key")])]

/-- A transport failure fixture. -/
def netDown : Except PyErr HttpResponse :=
  .error (.requestException "connection refused")

/-- A successful response carrying one candidate `"hello world"`. -/
def respOk : HttpResponse :=
  ⟨"<Response [200]>",
   some (.jobj [("choices",
     .jarr [.jobj [("message",
       .jobj [("role", .jstr "assistant"), ("content", .jstr "hello world")]),
       ("finish_reason", .jstr "stop"), ("index", .jint 0)]])])⟩

/-- `choice['message']['content']` as a plain string, with a dummy
default; only used under a hypothesis that the extraction succeeds with
a string. -/
def contentStr (choice : JValue) : String :=
  match jcontent choice with
  | .ok (.jstr s) => s
  | _ => ""

/-- The tokens `pySplit` produces: non-empty and whitespace-free. -/
def wsFreeTokens (ts : List String) : Prop :=
  ∀ t ∈ ts, t ≠ "" ∧ ∀ c ∈ t.data, isPySpace c = false

/-! ## Embedding spot checks (hand-traced against CPython) -/

-- Spot checks of the embedding against hand-traced CPython runs.
example : wrap_text "hello world" 20 = "hello world" := by decide
example : wrap_text "aa bb cc" 4 = "aa\nbb cc" := by decide
example : wrap_text "" 5 = "" := by decide
example : wrap_text "longword" 3 = "\nlongword" := by decide
example : pySplit "  a \t b\n" = ["a", "b"] := by decide
example : pyInt " 16 " = some 16 := by decide
example : pyInt "1_6" = some 16 := by decide
example : pyInt "abc" = none := by decide
example : pyInt "16.0" = none := by decide
example : (pyFloat "0").isSome = true := by decide
example : (pyFloat "1").isSome = true := by decide
example : (pyFloat "0.5").isSome = true := by decide
example : (pyFloat "1_0e2").isSome = true := by decide
example : pyFloat "x" = none := by decide
example : pyFloat "5." ≠ none := by decide
example : pyFloat "." = none := by decide
example : pyFloat "1__0" = none := by decide

-- Embedding spot checks (hand-traced against CPython).
example : parse_prefs prefs0 = .ok cfg0 := rfl
example : cfg0.wait_for_enter = 0 := rfl
example : cfg0.system_prompt = "sys" := rfl
example : cfg0.line_wrap = 20 := rfl
example : (parse_prefs prefsBadMax) =
    .error (.valueError "invalid literal for int() with base 10: \x27abc\x27") := rfl
example : create_items (.response respOk) 20 = .ok [assistantItem "hello world"] := rfl
example : create_items (.response ⟨"<Response [401]>", some errBody0⟩) 20 =
    .error (.exception
      "\x7b\x27error\x27: \x7b\x27message\x27: \x27bad key\x27\x7d\x7dbad key") := rfl
example : create_items (.response ⟨"<Response [500]>", none⟩) 20 =
    .error (.exception ("<Response [500]>" ++ UNKNOWN_ERR)) := rfl

/-! ## Claim theorems -/

/-- C4 (confirmed): for every non-empty `userText` and every resolved
configuration, the request built by `query` is dispatched exactly once
and its `messages` list has exactly 2 entries, in order a system turn
then a user turn, whose contents are the configured system prompt and
the given user text verbatim. -/
theorem C4_two_messages_verbatim (search_term system_prompt api_key : String)
    (temperature : Rat) (max_tokens : Int) (top_p frequency_penalty presence_penalty : Rat)
    (model : String) (net : Except PyErr HttpResponse) (h : search_term ≠ "") :
    ((query search_term system_prompt api_key temperature max_tokens top_p
        frequency_penalty presence_penalty model net).2).map (fun d => d.body.messages) =
      [[⟨"system", system_prompt⟩, ⟨"user", search_term⟩]] := by
  unfold query
  rw [if_neg h]
  cases net <;> rfl

theorem C4_two_messages_verbatim_witness :
    ((query "hi" "sys" "k" 1 16 1 0 0 "m" netDown).2).map (fun d => d.body.messages) =
      [[⟨"system", "sys"⟩, ⟨"user", "hi"⟩]] :=
  C4_two_messages_verbatim "hi" "sys" "k" 1 16 1 0 0 "m" netDown (by decide)

/-- C5 (confirmed): for every configuration, `query` on the empty search
term returns the blank-prompt action holding exactly one placeholder
item with a no-op action, and dispatches nothing — the
request-construction and send branch is unreachable for empty input. -/
theorem C5_blank_prompt_no_dispatch (system_prompt api_key : String)
    (temperature : Rat) (max_tokens : Int) (top_p frequency_penalty presence_penalty : Rat)
    (model : String) (net : Except PyErr HttpResponse) :
    query "" system_prompt api_key temperature max_tokens top_p
        frequency_penalty presence_penalty model net =
      (.ok (.blankAction [{ icon := EXTENSION_ICON, name := "Type in a prompt...",
                            on_enter := .doNothingAction }]), []) := rfl

/-- C10 (confirmed): in the keyword-query path the user text is
`str(event.get_argument())`, so a `None` argument becomes the string
`"None"`: the blank-prompt short-circuit is not taken and exactly one
request whose user-turn content is `"None"` is dispatched. -/
theorem C10_none_becomes_prompt (prefs : List (String × String)) (cfg : Config)
    (net : Except PyErr HttpResponse) (h : parse_prefs prefs = .ok cfg)
    (hw : cfg.wait_for_enter = 0) :
    (KeywordQueryEventListener.on_event prefs none net).2.map (fun d => d.body.messages) =
      [[⟨"system", cfg.system_prompt⟩, ⟨"user", "None"⟩]] := by
  unfold KeywordQueryEventListener.on_event
  rw [h]
  simp only [pyStrOpt, hw]
  unfold query
  rw [if_neg (by decide : ¬("None" : String) = "")]
  simp only [ne_eq, not_true_eq_false, if_false, ite_false]
  cases net <;> rfl

theorem C10_none_becomes_prompt_witness :
    (KeywordQueryEventListener.on_event prefs0 none (.ok respOk)).2.map
        (fun d => d.body.messages) =
      [[⟨"system", "sys"⟩, ⟨"user", "None"⟩]] :=
  C10_none_becomes_prompt prefs0 cfg0 (.ok respOk) rfl rfl

/-- C1 counterexample: with valid preferences and a response whose body
decodes but lacks `choices` (a `ServiceError` in the spec's taxonomy),
the keyword event handler does not return an error item — the exception
raised by `create_items` (called outside any `try`) escapes the handler
uncaught, contradicting the claim that every failure in the taxonomy is
recovered at the query boundary. -/
theorem C1_counterexample :
    (KeywordQueryEventListener.on_event prefs0 (some "hi")
        (.ok ⟨"<Response [401]>", some errBody0⟩)).1 =
      .error (.exception
        "\x7b\x27error\x27: \x7b\x27message\x27: \x27bad key\x27\x7d\x7dbad key") := rfl

/-- C2 counterexample: with `maxWidth = 4` and text `"aa bb cc"`, every
token has length 2 ≤ 4, yet the emitted line `"bb cc"` has length 5 > 4;
`"cc"` was appended although `"bb"` plus a separating space plus `"cc"`
has length 6 > 4. This falsifies both the stated append condition and
the stated 'every line ≤ maxWidth' consequence. -/
theorem C2_counterexample :
    wrap_text "aa bb cc" 4 = "aa\nbb cc" ∧
    wrapLines "aa bb cc" 4 = ["aa", "bb cc"] ∧
    (4 : Int) < (("bb cc" : String).length : Int) ∧
    pySplit "aa bb cc" = ["aa", "bb", "cc"] ∧
    (("aa" : String).length : Int) ≤ 4 ∧
    (("bb" : String).length : Int) ≤ 4 ∧
    (("cc" : String).length : Int) ≤ 4 :=
  ⟨by decide, by decide, by decide, by decide, by decide, by decide, by decide⟩

/-- C3 counterexample: a decoded body lacking `choices` whose
`error.message` field exists but is the number 42. The extraction
succeeds, yet the surfaced failure is a `TypeError` from the
`str(response) + errMsg` concatenation whose message mentions neither
the extracted field value, nor the fallback marker, nor the response
representation — contradicting the claimed error-message policy. -/
theorem C3_counterexample :
    create_items (.response ⟨"<Response [400]>",
        some (.jobj [("error", .jobj [("message", .jint 42)])])⟩) 20 =
      .error (.typeError "can only concatenate str (not \x22int\x22) to str") ∧
    containsSub "can only concatenate str (not \x22int\x22) to str" "42" = false ∧
    containsSub "can only concatenate str (not \x22int\x22) to str" "Unknown" = false :=
  ⟨rfl, by decide, by decide⟩

/-- C7 counterexample: with `max_tokens = "abc"` (all other preferences
valid), the handler does return exactly one preference-failure item and
dispatches nothing, but the surfaced error text is CPython's
`int()` message, which references only the raw value and not the field
name `max_tokens` — contradicting 'a ResolutionError that references the
field max_tokens'. -/
theorem C7_counterexample :
    KeywordQueryEventListener.on_event prefsBadMax (some "hi") (.ok respOk) =
      (.ok [{ icon := EXTENSION_ICON,
              name := "Failed to parse preferences: invalid literal for int() with base 10: \x27abc\x27",
              on_enter := .copyToClipboardAction
                "invalid literal for int() with base 10: \x27abc\x27" }], []) ∧
    containsSub "Failed to parse preferences: invalid literal for int() with base 10: \x27abc\x27"
        "max_tokens" = false :=
  ⟨rfl, by decide⟩

/-- C8 counterexample: `"a  b"` has length 4 ≤ 10 and contains no
newline, yet `wrap_text` collapses the double space, so the output
differs from the input — `wrap` is not the identity on all short
newline-free text. -/
theorem C8_counterexample :
    wrap_text "a  b" 10 = "a b" ∧
    ("a  b" : String) ≠ "a b" ∧
    (("a  b" : String).length : Int) ≤ 10 ∧
    ("a  b" : String).data.contains '\n' = false :=
  ⟨by decide, by decide, by decide, by decide⟩

/-- C7 (corrected): for every preference mapping whose `api_key` is
present and whose `max_tokens` value does not parse as an integer,
resolution fails at the `max_tokens` step with a `ValueError` carrying
the raw value (not the field name), no request is built or dispatched,
and the handler returns exactly one preference-failure item whose action
copies the error text. -/
theorem C7_amended_bad_max_tokens (prefs : List (String × String)) (arg : Option String)
    (net : Except PyErr HttpResponse) (k s : String)
    (hk : lookupPref prefs "api_key" = .ok k)
    (hs : lookupPref prefs "max_tokens" = .ok s)
    (hbad : pyInt s = none) :
    parse_prefs prefs =
      .error (.valueError ("invalid literal for int() with base 10: " ++ pyReprStr s)) ∧
    KeywordQueryEventListener.on_event prefs arg net =
      (.ok [{ icon := EXTENSION_ICON,
              name := "Failed to parse preferences: " ++
                ("invalid literal for int() with base 10: " ++ pyReprStr s),
              on_enter := .copyToClipboardAction
                ("invalid literal for int() with base 10: " ++ pyReprStr s) }], []) := by
  have ht : toIntE s =
      .error (.valueError ("invalid literal for int() with base 10: " ++ pyReprStr s)) := by
    unfold toIntE
    rw [hbad]
  have hp : parse_prefs prefs =
      .error (.valueError ("invalid literal for int() with base 10: " ++ pyReprStr s)) := by
    simp only [parse_prefs, hk, hs, ht]
  refine ⟨hp, ?_⟩
  simp only [KeywordQueryEventListener.on_event, hp]
  rfl

theorem C7_amended_bad_max_tokens_witness :
    parse_prefs prefsBadMax =
      .error (.valueError ("invalid literal for int() with base 10: " ++ pyReprStr "abc")) ∧
    KeywordQueryEventListener.on_event prefsBadMax (some "x") netDown =
      (.ok [{ icon := EXTENSION_ICON,
              name := "Failed to parse preferences: " ++
                ("invalid literal for int() with base 10: " ++ pyReprStr "abc"),
              on_enter := .copyToClipboardAction
                ("invalid literal for int() with base 10: " ++ pyReprStr "abc") }], []) :=
  C7_amended_bad_max_tokens prefsBadMax (some "x") netDown "k" "abc" rfl rfl rfl

/-- C3 (corrected): for a response whose body cannot be decoded or whose
decoded body lacks a `choices` key, `create_items` never returns an
empty candidate list but always fails; the raised message is
`str(response-object) + fallback` when decoding failed, and otherwise
`str(decodedBody) + m` where `m` is the `error.message` string when that
extraction yields a string and the fixed fallback when the path is
missing; when `error.message` exists but is not a string, the
concatenation itself raises a `TypeError` instead. -/
theorem C3_amended_error_extraction (r : HttpResponse) (line_wrap : Int) :
    (r.body = none →
      create_items (.response r) line_wrap = .error (.exception (r.rep ++ UNKNOWN_ERR))) ∧
    (∀ j, r.body = some j → jGet j "choices" = none →
      ((∀ s, (jGet j "error").bind (fun e => jGet e "message") = some (.jstr s) →
          create_items (.response r) line_wrap = .error (.exception (pyStrTop j ++ s))) ∧
       ((jGet j "error").bind (fun e => jGet e "message") = none →
          create_items (.response r) line_wrap =
            .error (.exception (pyStrTop j ++ UNKNOWN_ERR))) ∧
       (∀ v, (jGet j "error").bind (fun e => jGet e "message") = some v →
          (∀ s, v ≠ .jstr s) →
          create_items (.response r) line_wrap =
            .error (.typeError
              ("can only concatenate str (not \x22" ++ pyTypeName v ++ "\x22) to str"))))) := by
  constructor
  · intro hb
    simp only [create_items, hb]
  · intro j hb hc
    refine ⟨?_, ?_, ?_⟩
    · intro s hm
      simp only [create_items, hb, hc, hm]
    · intro hm
      simp only [create_items, hb, hc, hm]
    · intro v hm hv
      cases v with
      | jstr s => exact absurd rfl (hv s)
      | jint n => simp only [create_items, hb, hc, hm]
      | jfloat rep => simp only [create_items, hb, hc, hm]
      | jbool b => simp only [create_items, hb, hc, hm]
      | jnull => simp only [create_items, hb, hc, hm]
      | jarr es => simp only [create_items, hb, hc, hm]
      | jobj fs => simp only [create_items, hb, hc, hm]

theorem C3_amended_error_extraction_witness :
    (create_items (.response ⟨"<Response [500]>", none⟩) 20 =
      .error (.exception ("<Response [500]>" ++ UNKNOWN_ERR))) ∧
    (create_items (.response ⟨"<Response [401]>", some errBody0⟩) 20 =
      .error (.exception (pyStrTop errBody0 ++ "bad key"))) ∧
    (create_items (.response ⟨"<Response [401]>", some (.jobj [("id", .jint 7)])⟩) 20 =
      .error (.exception (pyStrTop (.jobj [("id", .jint 7)]) ++ UNKNOWN_ERR))) ∧
    (create_items (.response ⟨"<Response [401]>",
        some (.jobj [("error", .jobj [("message", .jnull)])])⟩) 20 =
      .error (.typeError ("can only concatenate str (not \x22NoneType\x22) to str"))) :=
  ⟨(C3_amended_error_extraction ⟨"<Response [500]>", none⟩ 20).1 rfl,
   ((C3_amended_error_extraction ⟨"<Response [401]>", some errBody0⟩ 20).2
      errBody0 rfl rfl).1 "bad key" rfl,
   ((C3_amended_error_extraction ⟨"<Response [401]>", some (.jobj [("id", .jint 7)])⟩ 20).2
      (.jobj [("id", .jint 7)]) rfl rfl).2.1 rfl,
   (((C3_amended_error_extraction ⟨"<Response [401]>",
        some (.jobj [("error", .jobj [("message", .jnull)])])⟩ 20).2
      (.jobj [("error", .jobj [("message", .jnull)])]) rfl rfl).2.2 .jnull rfl
      (fun _ h => JValue.noConfusion h))⟩

/-- Helper for C6: when every choice in the list carries a string
`message.content`, the item loop succeeds and returns one item per
choice, in order. -/
theorem mapM_choiceItem_ok (line_wrap : Int) (cs : List JValue)
    (h : ∀ c ∈ cs, ∃ s, jcontent c = .ok (.jstr s)) :
    cs.mapM (choiceItem line_wrap) =
      .ok (cs.map (fun c => assistantItem (wrap_text (contentStr c) line_wrap))) := by
  induction cs with
  | nil => rfl
  | cons c rest ih =>
    obtain ⟨s, hs⟩ := h c (List.mem_cons_self c rest)
    have hck : choiceItem line_wrap c =
        .ok (assistantItem (wrap_text (contentStr c) line_wrap)) := by
      simp only [choiceItem, contentStr, hs]
    have hrest := ih (fun x hx => h x (List.mem_cons_of_mem c hx))
    simp only [List.mapM_cons, hck, hrest, List.map_cons]
    rfl

/-- C6 (confirmed): for every well-formed response whose `choices` list
has n entries (each carrying a string `message.content`), `create_items`
returns exactly n items in the same order as the choices list, the i-th
item having the fixed `"Assistant"` title, body equal to `wrap_text` of
the i-th choice's content at the configured width, and a
copy-that-body-to-clipboard action. -/
theorem C6_one_item_per_choice (rep : String) (j : JValue) (cs : List JValue)
    (line_wrap : Int) (hj : jGet j "choices" = some (.jarr cs))
    (h : ∀ c ∈ cs, ∃ s, jcontent c = .ok (.jstr s)) :
    create_items (.response ⟨rep, some j⟩) line_wrap =
      .ok (cs.map (fun c => assistantItem (wrap_text (contentStr c) line_wrap))) := by
  simp only [create_items, hj, iterItems]
  exact mapM_choiceItem_ok line_wrap cs h

theorem C6_one_item_per_choice_witness :
    create_items (.response respOk) 20 =
      .ok [{ icon := EXTENSION_ICON, name := "Assistant", description := "hello world",
             on_enter := .copyToClipboardAction "hello world" }] :=
  C6_one_item_per_choice "<Response [200]>"
    (.jobj [("choices",
      .jarr [.jobj [("message",
        .jobj [("role", .jstr "assistant"), ("content", .jstr "hello world")]),
        ("finish_reason", .jstr "stop"), ("index", .jint 0)]])])
    [.jobj [("message",
        .jobj [("role", .jstr "assistant"), ("content", .jstr "hello world")]),
        ("finish_reason", .jstr "stop"), ("index", .jint 0)]]
    20 rfl
    (by
      intro c hc
      simp only [List.mem_singleton] at hc
      subst hc
      exact ⟨"hello world", rfl⟩)

/-! ## Text lemmas for the wrapper claims -/

theorem strData_append (a b : String) : (a ++ b).data = a.data ++ b.data := by
  cases a
  cases b
  rfl

theorem str_length_data (s : String) : s.length = s.data.length := rfl

theorem str_ne_nil_data (s : String) (h : s ≠ "") : s.data ≠ [] := by
  cases s with
  | mk l =>
    intro hl
    apply h
    have hl' : l = [] := hl
    subst hl'
    rfl

theorem dropWhile_len_le (p : Char → Bool) (l : List Char) :
    (l.dropWhile p).length ≤ l.length := by
  induction l with
  | nil => simp [List.dropWhile]
  | cons c cs ih =>
    by_cases h : p c
    · simp only [List.dropWhile_cons, h, if_true]
      exact Nat.le_trans ih (Nat.le_succ _)
    · simp [List.dropWhile_cons, h]

theorem stripL_length_le (l : List Char) : (stripL l).length ≤ l.length := by
  unfold stripL
  calc ((l.dropWhile isPySpace).reverse.dropWhile isPySpace).reverse.length
      = ((l.dropWhile isPySpace).reverse.dropWhile isPySpace).length := List.length_reverse _
    _ ≤ (l.dropWhile isPySpace).reverse.length := dropWhile_len_le _ _
    _ = (l.dropWhile isPySpace).length := List.length_reverse _
    _ ≤ l.length := dropWhile_len_le _ _

theorem pyStrip_length_le (s : String) : (pyStrip s).length ≤ s.length := by
  rw [str_length_data, str_length_data]
  exact stripL_length_le s.data

theorem wrapCore_nil (N : Int) (lines : List String) (c : String) :
    wrapCore N [] lines c = lines ++ [pyStrip c] := rfl

theorem wrapCore_cons (N : Int) (w : String) (ws lines : List String) (c : String) :
    wrapCore N (w :: ws) lines c =
      if ((c ++ w).length : Int) ≤ N then wrapCore N ws lines (c ++ " " ++ w)
      else wrapCore N ws (lines ++ [pyStrip c]) w := rfl

theorem wrapCore_append (N : Int) (ws : List String) :
    ∀ (l₁ l₂ : List String) (c : String),
      wrapCore N ws (l₁ ++ l₂) c = l₁ ++ wrapCore N ws l₂ c := by
  induction ws with
  | nil =>
    intro l₁ l₂ c
    simp [wrapCore]
  | cons w ws ih =>
    intro l₁ l₂ c
    by_cases h : ((c ++ w).length : Int) ≤ N
    · simp only [wrapCore, if_pos h]
      exact ih l₁ l₂ _
    · simp only [wrapCore, if_neg h]
      rw [List.append_assoc]
      exact ih l₁ (l₂ ++ [pyStrip c]) w

theorem wrapCore_len_bound (N : Int) (ws : List String)
    (hws : ∀ t ∈ ws, (t.length : Int) ≤ N) :
    ∀ (lines : List String) (c : String),
      ((c.length : Int) ≤ N + 1) → (∀ l ∈ lines, (l.length : Int) ≤ N + 1) →
      ∀ l ∈ wrapCore N ws lines c, (l.length : Int) ≤ N + 1 := by
  induction ws with
  | nil =>
    intro lines c hc hlines l hl
    simp only [wrapCore] at hl
    rcases List.mem_append.mp hl with h | h
    · exact hlines l h
    · rw [List.mem_singleton] at h
      subst h
      have := pyStrip_length_le c
      have hcast : ((pyStrip c).length : Int) ≤ (c.length : Int) := by exact_mod_cast this
      omega
  | cons w ws ih =>
    intro lines c hc hlines l hl
    have hw : (w.length : Int) ≤ N := hws w (List.mem_cons_self w ws)
    have hws' : ∀ t ∈ ws, (t.length : Int) ≤ N :=
      fun t ht => hws t (List.mem_cons_of_mem w ht)
    by_cases h : ((c ++ w).length : Int) ≤ N
    · simp only [wrapCore, if_pos h] at hl
      refine ih hws' lines (c ++ " " ++ w) ?_ hlines l hl
      have h1 : (c ++ " " ++ w).length = c.length + 1 + w.length := by
        rw [String.length_append, String.length_append]
        rfl
      have h2 : (c ++ w).length = c.length + w.length := String.length_append c w
      rw [h2] at h
      rw [h1]
      push_cast
      push_cast at h
      omega
    · simp only [wrapCore, if_neg h] at hl
      refine ih hws' (lines ++ [pyStrip c]) w (by omega) ?_ l hl
      intro l' hl'
      rcases List.mem_append.mp hl' with h' | h'
      · exact hlines l' h'
      · rw [List.mem_singleton] at h'
        subst h'
        have := pyStrip_length_le c
        have hcast : ((pyStrip c).length : Int) ≤ (c.length : Int) := by exact_mod_cast this
        omega

/-- C2 (corrected): the wrapper accumulates greedily with the check
`len(current_line + word) ≤ maxWidth`, where `current_line` carries a
leading space only until the first flush; for lines begun after a flush
the separating space is therefore not counted, and an emitted line can
exceed `maxWidth` by one: when every token has length ≤ maxWidth, every
emitted line has length ≤ maxWidth + 1 (the bound maxWidth itself fails,
see the counterexample). -/
theorem C2_amended_line_bound (text : String) (N : Int) (hN : 0 < N)
    (htok : ∀ t ∈ pySplit text, (t.length : Int) ≤ N) :
    ∀ l ∈ wrapLines text N, (l.length : Int) ≤ N + 1 := by
  intro l hl
  refine wrapCore_len_bound N (pySplit text) htok [] "" ?_ ?_ l hl
  · have : ("" : String).length = 0 := rfl
    rw [this]
    omega
  · intro l' hl'
    simp at hl'

theorem C2_amended_line_bound_witness : (("aa bb" : String).length : Int) ≤ 5 + 1 :=
  C2_amended_line_bound "aa bb cc" 5 (by decide) (by decide) "aa bb" (by decide)

theorem flushTok_mem (acc t : List Char) (h : t ∈ flushTok acc) :
    acc ≠ [] ∧ t = acc.reverse := by
  unfold flushTok at h
  by_cases ha : acc = []
  · rw [if_pos ha] at h
    simp at h
  · rw [if_neg ha] at h
    rw [List.mem_singleton] at h
    exact ⟨ha, h⟩

theorem splitWSAux_sound : ∀ (l acc : List Char), (∀ c ∈ acc, isPySpace c = false) →
    ∀ t ∈ splitWSAux l acc, t ≠ [] ∧ ∀ c ∈ t, isPySpace c = false := by
  intro l
  induction l with
  | nil =>
    intro acc hacc t ht
    simp only [splitWSAux] at ht
    obtain ⟨hne, hrev⟩ := flushTok_mem acc t ht
    subst hrev
    refine ⟨by simp [hne], ?_⟩
    intro c hc
    exact hacc c (List.mem_reverse.mp hc)
  | cons d ds ih =>
    intro acc hacc t ht
    simp only [splitWSAux] at ht
    by_cases hd : isPySpace d = true
    · rw [if_pos hd] at ht
      rcases List.mem_append.mp ht with h | h
      · obtain ⟨hne, hrev⟩ := flushTok_mem acc t h
        subst hrev
        refine ⟨by simp [hne], ?_⟩
        intro c hc
        exact hacc c (List.mem_reverse.mp hc)
      · exact ih [] (by simp) t h
    · rw [if_neg hd] at ht
      refine ih (d :: acc) ?_ t ht
      intro c hc
      rcases List.mem_cons.mp hc with h | h
      · subst h
        simpa using hd
      · exact hacc c h

theorem pySplit_sound (s : String) : wsFreeTokens (pySplit s) := by
  intro t ht
  unfold pySplit at ht
  rcases List.mem_map.mp ht with ⟨l, hl, hmk⟩
  subst hmk
  obtain ⟨hne, hws⟩ := splitWSAux_sound s.data [] (by simp) l hl
  refine ⟨?_, ?_⟩
  · intro h
    exact hne (congrArg String.data h)
  · intro c hc
    exact hws c hc

theorem pyJoin_data_ne_nil (sep : String) : ∀ (ts : List String), wsFreeTokens ts →
    ts ≠ [] → (pyJoin sep ts).data ≠ [] := by
  intro ts
  induction ts with
  | nil => intro _ h; exact absurd rfl h
  | cons t rest ih =>
    intro hts _
    have ht := hts t (List.mem_cons_self t rest)
    cases rest with
    | nil => exact str_ne_nil_data t ht.1
    | cons y ys =>
      have : pyJoin sep (t :: y :: ys) = t ++ sep ++ pyJoin sep (y :: ys) := rfl
      rw [this, strData_append, strData_append]
      intro hemp
      rcases List.append_eq_nil.mp hemp with ⟨h1, _⟩
      rcases List.append_eq_nil.mp h1 with ⟨h2, _⟩
      exact str_ne_nil_data t ht.1 h2

theorem pyJoin_head_not_ws : ∀ (ts : List String), wsFreeTokens ts →
    ∀ c, (pyJoin " " ts).data.head? = some c → isPySpace c = false := by
  intro ts
  cases ts with
  | nil =>
    intro _ c h
    cases h
  | cons t rest =>
    intro hts c h
    have ht := hts t (List.mem_cons_self t rest)
    have hdata : t.data ≠ [] := str_ne_nil_data t ht.1
    cases rest with
    | nil =>
      exact ht.2 c (List.mem_of_mem_head? h)
    | cons y ys =>
      have hform : pyJoin " " (t :: y :: ys) = t ++ " " ++ pyJoin " " (y :: ys) := rfl
      rw [hform, strData_append, strData_append] at h
      rw [List.append_assoc, List.head?_append_of_ne_nil t.data hdata] at h
      exact ht.2 c (List.mem_of_mem_head? h)

theorem pyJoin_getLast_not_ws : ∀ (ts : List String), wsFreeTokens ts →
    ∀ c, (pyJoin " " ts).data.getLast? = some c → isPySpace c = false := by
  intro ts
  induction ts with
  | nil =>
    intro _ c h
    cases h
  | cons t rest ih =>
    intro hts c h
    have ht := hts t (List.mem_cons_self t rest)
    cases rest with
    | nil =>
      exact ht.2 c (List.mem_of_mem_getLast? h)
    | cons y ys =>
      have hrest : wsFreeTokens (y :: ys) :=
        fun x hx => hts x (List.mem_cons_of_mem t hx)
      have hjoin : (pyJoin " " (y :: ys)).data ≠ [] :=
        pyJoin_data_ne_nil " " (y :: ys) hrest (by simp)
      have hform : pyJoin " " (t :: y :: ys) = t ++ " " ++ pyJoin " " (y :: ys) := rfl
      rw [hform, strData_append] at h
      rw [List.getLast?_append_of_ne_nil _ hjoin] at h
      exact ih hrest c h

theorem stripL_eq_self (l : List Char)
    (h1 : ∀ c, l.head? = some c → isPySpace c = false)
    (h2 : ∀ c, l.getLast? = some c → isPySpace c = false) :
    stripL l = l := by
  have hd : l.dropWhile isPySpace = l := by
    cases l with
    | nil => rfl
    | cons a as =>
      have := h1 a rfl
      simp [List.dropWhile_cons, this]
  unfold stripL
  rw [hd]
  have hrev : l.reverse.dropWhile isPySpace = l.reverse := by
    cases hr : l.reverse with
    | nil => rfl
    | cons a as =>
      have ha : l.getLast? = some a := by
        rw [← List.head?_reverse, hr]
        rfl
      have := h2 a ha
      simp [List.dropWhile_cons, this]
  rw [hrev, List.reverse_reverse]

theorem stripL_cons_space (l : List Char) : stripL (' ' :: l) = stripL l := by
  have hdw : (' ' :: l).dropWhile isPySpace = l.dropWhile isPySpace := by
    simp [List.dropWhile_cons, show isPySpace ' ' = true from rfl]
  unfold stripL
  rw [hdw]

theorem pyStrip_space (t : String) : pyStrip (" " ++ t) = pyStrip t := by
  unfold pyStrip
  have hdata : (" " ++ t).data = ' ' :: t.data := by
    rw [strData_append]
    rfl
  rw [hdata, stripL_cons_space]

theorem wrapCore_all_fits (N : Int) : ∀ (ws : List String) (c : String), ws ≠ [] →
    (((c ++ " " ++ pyJoin " " ws).length : Int) ≤ N + 1) →
    wrapCore N ws [] c = [pyStrip (c ++ " " ++ pyJoin " " ws)] := by
  intro ws
  induction ws with
  | nil =>
    intro c h
    exact absurd rfl h
  | cons w rest ih =>
    intro c _ hlen
    cases rest with
    | nil =>
      have hj : pyJoin " " [w] = w := rfl
      rw [hj] at hlen ⊢
      have hfit : ((c ++ w).length : Int) ≤ N := by
        have h1 : (c ++ " " ++ w).length = c.length + 1 + w.length := by
          rw [String.length_append, String.length_append]
          rfl
        have h2 : (c ++ w).length = c.length + w.length := String.length_append c w
        rw [h1] at hlen
        rw [h2]
        push_cast at hlen ⊢
        omega
      rw [wrapCore_cons, if_pos hfit, wrapCore_nil]
      rfl
    | cons y ys =>
      have hj : pyJoin " " (w :: y :: ys) = w ++ " " ++ pyJoin " " (y :: ys) := rfl
      rw [hj] at hlen
      have hfit : ((c ++ w).length : Int) ≤ N := by
        have h1 : (c ++ " " ++ (w ++ " " ++ pyJoin " " (y :: ys))).length =
            c.length + 1 + (w.length + 1 + (pyJoin " " (y :: ys)).length) := by
          simp only [String.length_append]
          rfl
        have h2 : (c ++ w).length = c.length + w.length := String.length_append c w
        rw [h1] at hlen
        rw [h2]
        push_cast at hlen ⊢
        omega
      rw [hj]
      rw [wrapCore_cons, if_pos hfit]
      have hassoc : (c ++ " " ++ w) ++ " " ++ pyJoin " " (y :: ys) =
          c ++ " " ++ (w ++ " " ++ pyJoin " " (y :: ys)) := by
        simp [String.append_assoc]
      have hlen' : (((c ++ " " ++ w) ++ " " ++ pyJoin " " (y :: ys)).length : Int) ≤ N + 1 := by
        rw [hassoc]
        exact hlen
      rw [ih (c ++ " " ++ w) (by simp) hlen', hassoc]

/-- C8 (corrected): `wrap(text, N) = text` when `len(text) ≤ N` and the
text is whitespace-normalised — it equals the single-space join of its
whitespace tokens (no repeated spaces, no tabs or newlines, no leading
or trailing whitespace). For short text that is merely newline-free,
`wrap` instead returns the normalised form (see the counterexample). -/
theorem C8_amended_identity (text : String) (N : Int)
    (hlen : (text.length : Int) ≤ N)
    (hnorm : pyJoin " " (pySplit text) = text) :
    wrap_text text N = text := by
  cases hsp : pySplit text with
  | nil =>
    have hempty : text = "" := by
      rw [← hnorm, hsp]
      rfl
    subst hempty
    rfl
  | cons w rest =>
    have htokens := pySplit_sound text
    have hne : pySplit text ≠ [] := by
      rw [hsp]
      simp
    have hlen2 : ((("" : String) ++ " " ++ pyJoin " " (pySplit text)).length : Int) ≤ N + 1 := by
      rw [hnorm]
      have : (("" : String) ++ " " ++ text).length = 1 + text.length := by
        simp only [String.length_append]
        rfl
      rw [this]
      push_cast
      omega
    have hfits := wrapCore_all_fits N (pySplit text) "" hne hlen2
    have h0 : ("" : String) ++ " " ++ pyJoin " " (pySplit text) = " " ++ text := by
      rw [hnorm]
      rfl
    have hh : ∀ c, text.data.head? = some c → isPySpace c = false := by
      intro c hc
      refine pyJoin_head_not_ws (pySplit text) htokens c ?_
      rw [hnorm]
      exact hc
    have hl2 : ∀ c, text.data.getLast? = some c → isPySpace c = false := by
      intro c hc
      refine pyJoin_getLast_not_ws (pySplit text) htokens c ?_
      rw [hnorm]
      exact hc
    have hstrip : pyStrip text = text := by
      unfold pyStrip
      rw [stripL_eq_self text.data hh hl2]
    show pyJoin "\n" (wrapCore N (pySplit text) [] "") = text
    rw [hfits, h0, pyStrip_space, hstrip]
    rfl

theorem C8_amended_identity_witness : wrap_text "hello world" 11 = "hello world" :=
  C8_amended_identity "hello world" 11 (by decide) (by decide)

theorem splitWSAux_nil (acc : List Char) : splitWSAux [] acc = flushTok acc := rfl

theorem splitWSAux_cons (c : Char) (cs acc : List Char) :
    splitWSAux (c :: cs) acc =
      if isPySpace c then flushTok acc ++ splitWSAux cs []
      else splitWSAux cs (c :: acc) := rfl

theorem splitWSAux_token : ∀ (t : List Char), (∀ c ∈ t, isPySpace c = false) →
    ∀ (acc l : List Char), splitWSAux (t ++ l) acc = splitWSAux l (t.reverse ++ acc) := by
  intro t
  induction t with
  | nil =>
    intro _ acc l
    simp
  | cons d ds ih =>
    intro h acc l
    have hd : isPySpace d = false := h d (List.mem_cons_self d ds)
    rw [List.cons_append, splitWSAux_cons, if_neg (by simp [hd])]
    rw [ih (fun c hc => h c (List.mem_cons_of_mem d hc)) (d :: acc) l]
    congr 1
    simp

theorem splitWSAux_token_single (t : List Char) (hne : t ≠ [])
    (h : ∀ c ∈ t, isPySpace c = false) : splitWSAux t [] = [t] := by
  have h1 : splitWSAux (t ++ []) [] = splitWSAux [] (t.reverse ++ []) :=
    splitWSAux_token t h [] []
  simp only [List.append_nil] at h1
  rw [h1, splitWSAux_nil]
  unfold flushTok
  rw [if_neg (by simp [hne])]
  simp

theorem splitWSAux_ws_last (c : Char) (hc : isPySpace c = true) :
    ∀ (l acc : List Char), splitWSAux (l ++ [c]) acc = splitWSAux l acc := by
  intro l
  induction l with
  | nil =>
    intro acc
    rw [List.nil_append, splitWSAux_cons, if_pos hc, splitWSAux_nil, splitWSAux_nil]
    simp [flushTok]
  | cons d ds ih =>
    intro acc
    rw [List.cons_append, splitWSAux_cons, splitWSAux_cons]
    by_cases hd : isPySpace d = true
    · rw [if_pos hd, if_pos hd, ih []]
    · rw [if_neg hd, if_neg hd, ih (d :: acc)]

theorem splitWSAux_sep (c : Char) (hc : isPySpace c = true) (l₂ : List Char) :
    ∀ (l₁ acc : List Char),
      splitWSAux (l₁ ++ c :: l₂) acc = splitWSAux (l₁ ++ [c]) acc ++ splitWSAux l₂ [] := by
  intro l₁
  induction l₁ with
  | nil =>
    intro acc
    rw [List.nil_append, List.nil_append, splitWSAux_cons, if_pos hc,
        splitWSAux_cons, if_pos hc, splitWSAux_nil]
    have hf : flushTok ([] : List Char) = [] := rfl
    rw [hf, List.append_nil]
  | cons d ds ih =>
    intro acc
    rw [List.cons_append, List.cons_append, splitWSAux_cons, splitWSAux_cons]
    by_cases hd : isPySpace d = true
    · rw [if_pos hd, if_pos hd, ih []]
      rw [List.append_assoc]
    · rw [if_neg hd, if_neg hd, ih (d :: acc)]

theorem splitWSAux_sep_nil (c : Char) (hc : isPySpace c = true) (l₁ l₂ : List Char) :
    splitWSAux (l₁ ++ c :: l₂) [] = splitWSAux l₁ [] ++ splitWSAux l₂ [] := by
  rw [splitWSAux_sep c hc l₂ l₁ [], splitWSAux_ws_last c hc l₁ []]

theorem splitWSAux_ws_suffix : ∀ (sfx : List Char), (∀ c ∈ sfx, isPySpace c = true) →
    ∀ (l acc : List Char), splitWSAux (l ++ sfx) acc = splitWSAux l acc := by
  intro sfx
  induction sfx with
  | nil =>
    intro _ l acc
    rw [List.append_nil]
  | cons d ds ih =>
    intro h l acc
    have hd := h d (List.mem_cons_self d ds)
    have hsplit : l ++ d :: ds = (l ++ [d]) ++ ds := by simp
    rw [hsplit, ih (fun c hc => h c (List.mem_cons_of_mem d hc)) (l ++ [d]) acc,
        splitWSAux_ws_last d hd l acc]

theorem splitWSAux_dropWhile : ∀ (l : List Char),
    splitWSAux (l.dropWhile isPySpace) [] = splitWSAux l [] := by
  intro l
  induction l with
  | nil => rfl
  | cons d ds ih =>
    by_cases hd : isPySpace d = true
    · rw [List.dropWhile_cons, if_pos hd, ih, splitWSAux_cons, if_pos hd]
      simp [flushTok]
    · rw [List.dropWhile_cons, if_neg hd]

theorem splitWSAux_stripL (l : List Char) :
    splitWSAux (stripL l) [] = splitWSAux l [] := by
  have h1 : (l.dropWhile isPySpace).reverse.takeWhile isPySpace ++
      (l.dropWhile isPySpace).reverse.dropWhile isPySpace = (l.dropWhile isPySpace).reverse :=
    List.takeWhile_append_dropWhile isPySpace (l.dropWhile isPySpace).reverse
  have h2 := congrArg List.reverse h1
  rw [List.reverse_append, List.reverse_reverse] at h2
  have hsplit : l.dropWhile isPySpace =
      stripL l ++ ((l.dropWhile isPySpace).reverse.takeWhile isPySpace).reverse := by
    unfold stripL
    exact h2.symm
  have hws : ∀ c ∈ ((l.dropWhile isPySpace).reverse.takeWhile isPySpace).reverse,
      isPySpace c = true := by
    intro c hc
    rw [List.mem_reverse] at hc
    exact List.mem_takeWhile_imp hc
  calc splitWSAux (stripL l) []
      = splitWSAux (stripL l ++
          ((l.dropWhile isPySpace).reverse.takeWhile isPySpace).reverse) [] :=
        (splitWSAux_ws_suffix _ hws (stripL l) []).symm
    _ = splitWSAux (l.dropWhile isPySpace) [] := by rw [← hsplit]
    _ = splitWSAux l [] := splitWSAux_dropWhile l

theorem pySplit_pyStrip (s : String) : pySplit (pyStrip s) = pySplit s := by
  unfold pySplit pyStrip
  have hdata : (String.mk (stripL s.data)).data = stripL s.data := rfl
  rw [hdata, splitWSAux_stripL]

theorem pySplit_append_sep (a b : String) (c : Char) (hc : isPySpace c = true)
    (sep : String) (hsep : sep.data = [c]) :
    pySplit (a ++ sep ++ b) = pySplit a ++ pySplit b := by
  unfold pySplit
  have hdata : (a ++ sep ++ b).data = a.data ++ c :: b.data := by
    rw [strData_append, strData_append, hsep]
    simp
  rw [hdata, splitWSAux_sep_nil c hc, List.map_append]

theorem pySplit_token (t : String) (hne : t ≠ "")
    (h : ∀ c ∈ t.data, isPySpace c = false) : pySplit t = [t] := by
  unfold pySplit
  rw [splitWSAux_token_single t.data (str_ne_nil_data t hne) h]
  rfl

theorem pySplit_pyJoin_ws (sep : String) (c : Char) (hsep : sep.data = [c])
    (hc : isPySpace c = true) :
    ∀ (lines : List String), pySplit (pyJoin sep lines) = (lines.map pySplit).flatten := by
  intro lines
  induction lines with
  | nil => rfl
  | cons x rest ih =>
    cases rest with
    | nil => simp [pyJoin]
    | cons y ys =>
      have hform : pyJoin sep (x :: y :: ys) = x ++ sep ++ pyJoin sep (y :: ys) := rfl
      rw [hform, pySplit_append_sep x (pyJoin sep (y :: ys)) c hc sep hsep, ih]
      simp

theorem flatten_map_pySplit (ts : List String) (h : wsFreeTokens ts) :
    (ts.map pySplit).flatten = ts := by
  induction ts with
  | nil => rfl
  | cons t rest ih =>
    have ht := h t (List.mem_cons_self t rest)
    have hrest : wsFreeTokens rest := fun x hx => h x (List.mem_cons_of_mem t hx)
    rw [List.map_cons, List.flatten_cons, pySplit_token t ht.1 ht.2, ih hrest]
    rfl

theorem pySplit_pyJoin_tokens (ts : List String) (h : wsFreeTokens ts) :
    pySplit (pyJoin " " ts) = ts := by
  rw [pySplit_pyJoin_ws " " ' ' rfl rfl ts]
  exact flatten_map_pySplit ts h

theorem wrapCore_tokens (N : Int) : ∀ (ws : List String), wsFreeTokens ws →
    ∀ (c : String), ((wrapCore N ws [] c).map pySplit).flatten = pySplit c ++ ws := by
  intro ws
  induction ws with
  | nil =>
    intro _ c
    rw [wrapCore_nil]
    simp [pySplit_pyStrip]
  | cons w rest ih =>
    intro h c
    have hw := h w (List.mem_cons_self w rest)
    have hrest : wsFreeTokens rest := fun x hx => h x (List.mem_cons_of_mem w hx)
    rw [wrapCore_cons]
    by_cases hfit : ((c ++ w).length : Int) ≤ N
    · rw [if_pos hfit, ih hrest (c ++ " " ++ w),
          pySplit_append_sep c w ' ' rfl " " rfl, pySplit_token w hw.1 hw.2]
      simp
    · rw [if_neg hfit]
      have hsplit : ([] : List String) ++ [pyStrip c] = [pyStrip c] ++ [] := by simp
      rw [hsplit, wrapCore_append N rest [pyStrip c] [] w,
          List.map_append, List.flatten_append, ih hrest w,
          pySplit_token w hw.1 hw.2]
      simp [pySplit_pyStrip]


/-- C9 (confirmed): the wrapper's output depends only on the
whitespace-collapsed form of the input (wrapping a text and wrapping the
single-space join of its tokens give identical output), and the output's
own whitespace consists purely of single separators around the original
tokens: splitting the output recovers exactly the input's token list.
Hence internal newlines, tabs, repeated spaces and leading/trailing
whitespace of a candidate's content are never preserved in the displayed
body. -/
theorem C9_whitespace_collapse (text : String) (N : Int) :
    wrap_text text N = wrap_text (pyJoin " " (pySplit text)) N ∧
    pySplit (wrap_text text N) = pySplit text := by
  have htokens := pySplit_sound text
  constructor
  · unfold wrap_text wrapLines
    rw [pySplit_pyJoin_tokens (pySplit text) htokens]
  · unfold wrap_text wrapLines
    rw [pySplit_pyJoin_ws "\n" '\n' rfl rfl, wrapCore_tokens N (pySplit text) htokens ""]
    rfl

/-! ## Result-shape lemmas for the error-boundary claim -/

theorem choiceItem_ok_shape (lw : Int) (c : JValue) (it : ExtensionResultItem)
    (h : choiceItem lw c = .ok it) :
    it.name = "Assistant" ∧ ∃ s, it.on_enter = .copyToClipboardAction s := by
  unfold choiceItem at h
  cases hj : jcontent c with
  | error e =>
    rw [hj] at h
    exact Except.noConfusion h
  | ok v =>
    rw [hj] at h
    cases v with
    | jstr s =>
      have h' : Except.ok (ε := PyErr) (assistantItem (wrap_text s lw)) = .ok it := h
      injection h' with h''
      subst h''
      exact ⟨rfl, ⟨wrap_text s lw, rfl⟩⟩
    | jint n => exact Except.noConfusion h
    | jfloat rep => exact Except.noConfusion h
    | jbool b => exact Except.noConfusion h
    | jnull => exact Except.noConfusion h
    | jarr es => exact Except.noConfusion h
    | jobj fs => exact Except.noConfusion h

theorem mapM_ok_shape (lw : Int) : ∀ (cs : List JValue) (items : List ExtensionResultItem),
    cs.mapM (choiceItem lw) = .ok items →
    ∀ it ∈ items, it.name = "Assistant" ∧ ∃ s, it.on_enter = .copyToClipboardAction s := by
  intro cs
  induction cs with
  | nil =>
    intro items h it hit
    have h' : Except.ok (ε := PyErr) ([] : List ExtensionResultItem) = .ok items := h
    injection h' with h''
    subst h''
    simp at hit
  | cons c rest ih =>
    intro items h it hit
    rw [List.mapM_cons] at h
    cases hc : choiceItem lw c with
    | error e =>
      rw [hc] at h
      exact Except.noConfusion h
    | ok it0 =>
      rw [hc] at h
      cases hrest : rest.mapM (choiceItem lw) with
      | error e =>
        rw [hrest] at h
        exact Except.noConfusion h
      | ok items0 =>
        rw [hrest] at h
        have h' : Except.ok (ε := PyErr) (it0 :: items0) = .ok items := h
        injection h' with h''
        subst h''
        rcases List.mem_cons.mp hit with h1 | h1
        · subst h1
          exact choiceItem_ok_shape lw c it hc
        · exact ih items0 hrest it h1

theorem create_items_ok_shape (qr : QueryReturn) (lw : Int)
    (items : List ExtensionResultItem) (h : create_items qr lw = .ok items) :
    ∀ it ∈ items, it.name = "Assistant" ∧ ∃ s, it.on_enter = .copyToClipboardAction s := by
  cases qr with
  | blankAction l => exact Except.noConfusion h
  | response r =>
    simp only [create_items] at h
    split at h
    · exact Except.noConfusion h
    · split at h
      · split at h <;> exact Except.noConfusion h
      · rename_i j cv hc
        cases cv with
        | jarr cs => exact mapM_ok_shape lw cs items h
        | jstr s =>
          have h2 : (if s = "" then Except.ok ([] : List ExtensionResultItem)
              else Except.error (PyErr.typeError "string indices must be integers")) =
              .ok items := h
          by_cases hs : s = ""
          · rw [if_pos hs] at h2
            injection h2 with h3
            subst h3
            intro it hit
            simp at hit
          · rw [if_neg hs] at h2
            exact Except.noConfusion h2
        | jobj fs =>
          cases fs with
          | nil =>
            have h2 : Except.ok (ε := PyErr) ([] : List ExtensionResultItem) = .ok items := h
            injection h2 with h3
            subst h3
            intro it hit
            simp at hit
          | cons p ps => exact Except.noConfusion h
        | jint n => exact Except.noConfusion h
        | jfloat rep => exact Except.noConfusion h
        | jbool b => exact Except.noConfusion h
        | jnull => exact Except.noConfusion h

theorem keyword_on_event_ok (prefs : List (String × String)) (cfg : Config)
    (arg : Option String) (net : Except PyErr HttpResponse)
    (hp : parse_prefs prefs = .ok cfg) (hw : cfg.wait_for_enter = 0)
    (hne : pyStrOpt arg ≠ "") :
    (KeywordQueryEventListener.on_event prefs arg net).1 =
      match net with
      | .error err =>
        .ok [{ icon := EXTENSION_ICON, name := "Request failed: " ++ strErr err,
               on_enter := .copyToClipboardAction (strErr err) }]
      | .ok r => create_items (.response r) cfg.line_wrap := by
  simp only [KeywordQueryEventListener.on_event, hp, hw]
  unfold query
  rw [if_neg hne]
  cases net <;> rfl

theorem itementer_on_event_ok (prefs : List (String × String)) (cfg : Config)
    (data : String) (net : Except PyErr HttpResponse)
    (hp : parse_prefs prefs = .ok cfg) (hne : data ≠ "") :
    (ItemEnterEventListener.on_event prefs data net).1 =
      match net with
      | .error err =>
        .ok [{ icon := EXTENSION_ICON, name := "Request failed: " ++ strErr err,
               on_enter := .copyToClipboardAction (strErr err) }]
      | .ok r => create_items (.response r) cfg.line_wrap := by
  simp only [ItemEnterEventListener.on_event, hp]
  unfold query
  rw [if_neg hne]
  cases net <;> rfl

/-- C1 (corrected): of the three failure classes, only two are recovered
at the query boundary, and this holds for both event handlers. (1) A
resolution failure is converted by either listener into exactly one
error item whose action copies the error text, with no dispatch.
(2) A transport failure is converted by either listener into exactly one
`Request failed` error item. (3) A normalization failure (the spec's
`ServiceError`) is NOT recovered by either listener: `create_items` is
called outside any `try` (src/main.py lines 184 and 239), so its
exception escapes the event handler uncaught. (4) Neither handler ever
returns a mix: any returned list is a single item or consists solely of
`Assistant` candidate items with copy actions. Conjuncts 1-4 cover
`KeywordQueryEventListener.on_event`, conjuncts 5-7 cover
`ItemEnterEventListener.on_event` (which has no wait-for-enter branch). -/
theorem C1_amended_error_boundary (prefs : List (String × String)) (arg : Option String)
    (data : String) (net : Except PyErr HttpResponse) :
    (∀ e, parse_prefs prefs = .error e →
      KeywordQueryEventListener.on_event prefs arg net =
        (.ok [{ icon := EXTENSION_ICON, name := "Failed to parse preferences: " ++ strErr e,
                on_enter := .copyToClipboardAction (strErr e) }], []) ∧
      ItemEnterEventListener.on_event prefs data net =
        (.ok [{ icon := EXTENSION_ICON, name := "Failed to parse preferences: " ++ strErr e,
                on_enter := .copyToClipboardAction (strErr e) }], [])) ∧
    (∀ cfg e, parse_prefs prefs = .ok cfg → cfg.wait_for_enter = 0 → pyStrOpt arg ≠ "" →
      net = .error e →
      (KeywordQueryEventListener.on_event prefs arg net).1 =
        .ok [{ icon := EXTENSION_ICON, name := "Request failed: " ++ strErr e,
               on_enter := .copyToClipboardAction (strErr e) }]) ∧
    (∀ cfg r e, parse_prefs prefs = .ok cfg → cfg.wait_for_enter = 0 → pyStrOpt arg ≠ "" →
      net = .ok r → create_items (.response r) cfg.line_wrap = .error e →
      (KeywordQueryEventListener.on_event prefs arg net).1 = .error e) ∧
    (∀ items, (KeywordQueryEventListener.on_event prefs arg net).1 = .ok items →
      items.length = 1 ∨ ∀ it ∈ items, it.name = "Assistant" ∧
        ∃ s, it.on_enter = .copyToClipboardAction s) ∧
    (∀ cfg e, parse_prefs prefs = .ok cfg → data ≠ "" → net = .error e →
      (ItemEnterEventListener.on_event prefs data net).1 =
        .ok [{ icon := EXTENSION_ICON, name := "Request failed: " ++ strErr e,
               on_enter := .copyToClipboardAction (strErr e) }]) ∧
    (∀ cfg r e, parse_prefs prefs = .ok cfg → data ≠ "" →
      net = .ok r → create_items (.response r) cfg.line_wrap = .error e →
      (ItemEnterEventListener.on_event prefs data net).1 = .error e) ∧
    (∀ items, (ItemEnterEventListener.on_event prefs data net).1 = .ok items →
      items.length = 1 ∨ ∀ it ∈ items, it.name = "Assistant" ∧
        ∃ s, it.on_enter = .copyToClipboardAction s) := by
  refine ⟨?conj1, ?conj2, ?conj3, ?conj4, ?conj5, ?conj6, ?conj7⟩
  case conj1 =>
    intro e he
    constructor
    · simp only [KeywordQueryEventListener.on_event, he]
    · simp only [ItemEnterEventListener.on_event, he]
  case conj2 =>
    intro cfg e hp hw hne hnet
    subst hnet
    rw [keyword_on_event_ok prefs cfg arg (.error e) hp hw hne]
  case conj3 =>
    intro cfg r e hp hw hne hnet hci
    subst hnet
    rw [keyword_on_event_ok prefs cfg arg (.ok r) hp hw hne]
    exact hci
  case conj4 =>
    intro items h
    cases hp : parse_prefs prefs with
    | error e =>
      simp only [KeywordQueryEventListener.on_event, hp] at h
      injection h with h2
      subst h2
      left
      rfl
    | ok cfg =>
      by_cases hw : cfg.wait_for_enter = 0
      · by_cases hne : pyStrOpt arg = ""
        · simp only [KeywordQueryEventListener.on_event, hp, hw, hne] at h
          simp only [query, if_pos rfl] at h
          exact absurd h (Except.noConfusion)
        · rw [keyword_on_event_ok prefs cfg arg net hp hw hne] at h
          cases net with
          | error e =>
            injection h with h2
            subst h2
            left
            rfl
          | ok r =>
            right
            exact create_items_ok_shape (.response r) cfg.line_wrap items h
      · simp only [KeywordQueryEventListener.on_event, hp, if_pos hw] at h
        injection h with h2
        subst h2
        left
        rfl
  case conj5 =>
    intro cfg e hp hne hnet
    subst hnet
    rw [itementer_on_event_ok prefs cfg data (.error e) hp hne]
  case conj6 =>
    intro cfg r e hp hne hnet hci
    subst hnet
    rw [itementer_on_event_ok prefs cfg data (.ok r) hp hne]
    exact hci
  case conj7 =>
    intro items h
    cases hp : parse_prefs prefs with
    | error e =>
      simp only [ItemEnterEventListener.on_event, hp] at h
      injection h with h2
      subst h2
      left
      rfl
    | ok cfg =>
      by_cases hne : data = ""
      · simp only [ItemEnterEventListener.on_event, hp, hne] at h
        simp only [query, if_pos rfl] at h
        exact absurd h (Except.noConfusion)
      · rw [itementer_on_event_ok prefs cfg data net hp hne] at h
        cases net with
        | error e =>
          injection h with h2
          subst h2
          left
          rfl
        | ok r =>
          right
          exact create_items_ok_shape (.response r) cfg.line_wrap items h

theorem C1_amended_error_boundary_witness :
    (KeywordQueryEventListener.on_event prefsBadMax (some "hi") netDown =
      (.ok [{ icon := EXTENSION_ICON,
              name := "Failed to parse preferences: invalid literal for int() with base 10: \x27abc\x27",
              on_enter := .copyToClipboardAction
                "invalid literal for int() with base 10: \x27abc\x27" }], []) ∧
     ItemEnterEventListener.on_event prefsBadMax "hi" netDown =
      (.ok [{ icon := EXTENSION_ICON,
              name := "Failed to parse preferences: invalid literal for int() with base 10: \x27abc\x27",
              on_enter := .copyToClipboardAction
                "invalid literal for int() with base 10: \x27abc\x27" }], [])) ∧
    ((KeywordQueryEventListener.on_event prefs0 (some "hi") netDown).1 =
      .ok [{ icon := EXTENSION_ICON, name := "Request failed: connection refused",
             on_enter := .copyToClipboardAction "connection refused" }]) ∧
    ((KeywordQueryEventListener.on_event prefs0 (some "hi")
        (.ok ⟨"<Response [401]>", some errBody0⟩)).1 =
      .error (.exception
        "\x7b\x27error\x27: \x7b\x27message\x27: \x27bad key\x27\x7d\x7dbad key")) ∧
    ([assistantItem (wrap_text "hello world" 20)].length = 1 ∨
      ∀ it ∈ [assistantItem (wrap_text "hello world" 20)], it.name = "Assistant" ∧
        ∃ s, it.on_enter = OnEnter.copyToClipboardAction s) ∧
    ((ItemEnterEventListener.on_event prefs0 "hi" netDown).1 =
      .ok [{ icon := EXTENSION_ICON, name := "Request failed: connection refused",
             on_enter := .copyToClipboardAction "connection refused" }]) ∧
    ((ItemEnterEventListener.on_event prefs0 "hi"
        (.ok ⟨"<Response [401]>", some errBody0⟩)).1 =
      .error (.exception
        "\x7b\x27error\x27: \x7b\x27message\x27: \x27bad key\x27\x7d\x7dbad key")) ∧
    (([] : List ExtensionResultItem).length = 1 ∨
      ∀ it ∈ ([] : List ExtensionResultItem), it.name = "Assistant" ∧
        ∃ s, it.on_enter = OnEnter.copyToClipboardAction s) :=
  ⟨(C1_amended_error_boundary prefsBadMax (some "hi") "hi" netDown).1
      (.valueError "invalid literal for int() with base 10: \x27abc\x27") rfl,
   (C1_amended_error_boundary prefs0 (some "hi") "d" netDown).2.1 cfg0
      (.requestException "connection refused") rfl rfl (by decide) rfl,
   (C1_amended_error_boundary prefs0 (some "hi") "d"
      (.ok ⟨"<Response [401]>", some errBody0⟩)).2.2.1 cfg0
      ⟨"<Response [401]>", some errBody0⟩
      (.exception "\x7b\x27error\x27: \x7b\x27message\x27: \x27bad key\x27\x7d\x7dbad key")
      rfl rfl (by decide) rfl rfl,
   (C1_amended_error_boundary prefs0 (some "hi") "d" (.ok respOk)).2.2.2.1
      [assistantItem (wrap_text "hello world" 20)] rfl,
   (C1_amended_error_boundary prefs0 (some "x") "hi" netDown).2.2.2.2.1 cfg0
      (.requestException "connection refused") rfl (by decide) rfl,
   (C1_amended_error_boundary prefs0 (some "x") "hi"
      (.ok ⟨"<Response [401]>", some errBody0⟩)).2.2.2.2.2.1 cfg0
      ⟨"<Response [401]>", some errBody0⟩
      (.exception "\x7b\x27error\x27: \x7b\x27message\x27: \x27bad key\x27\x7d\x7dbad key")
      rfl (by decide) rfl rfl,
   (C1_amended_error_boundary prefs0 (some "x") "hi"
      (.ok ⟨"<Response [200]>", some (.jobj [("choices", .jarr [])])⟩)).2.2.2.2.2.2
      [] rfl⟩
